import Mathlib

/-
Verification of the TIFF/GeoTIFF test-fixture generator
(src/test_geotiff/generate_test_files.py).

Each write_* definition below is a shallow embedding of the Python
function of the same name: the Python function emits bytes to a file
in sequence, and the Lean definition is the concatenation of exactly
those byte groups, in the same order.  Bytes are modelled as Nat
values below 256.
-/

/-- Embedding of struct.pack with format <H : a 16-bit unsigned value
in little-endian byte order (least-significant byte first). -/
def struct_pack_le_H (v : Nat) : List Nat :=
  [v % 256, v / 256 % 256]

/-- Embedding of struct.pack with format <I : a 32-bit unsigned value
in little-endian byte order. -/
def struct_pack_le_I (v : Nat) : List Nat :=
  [v % 256, v / 256 % 256, v / 65536 % 256, v / 16777216 % 256]

/-- Embedding of struct.pack with format >H : a 16-bit unsigned value
in big-endian byte order (most-significant byte first). -/
def struct_pack_be_H (v : Nat) : List Nat :=
  [v / 256 % 256, v % 256]

/-- Embedding of struct.pack with format >I : a 32-bit unsigned value
in big-endian byte order. -/
def struct_pack_be_I (v : Nat) : List Nat :=
  [v / 16777216 % 256, v / 65536 % 256, v / 256 % 256, v % 256]

/-- Bytes produced by write_le_geotiff: the minimal little-endian
GeoTIFF fixture.  Concatenation of the f.write calls of the source,
in source order. -/
def write_le_geotiff : List Nat :=
  [73, 73]                      -- magic marker II
  ++ struct_pack_le_H 42        -- version (classic TIFF)
  ++ struct_pack_le_I 8         -- IFD offset
  ++ struct_pack_le_H 2         -- number of entries
  ++ struct_pack_le_H 256       -- entry 1: tag ImageWidth
  ++ struct_pack_le_H 3         -- entry 1: type SHORT
  ++ struct_pack_le_I 1         -- entry 1: count
  ++ struct_pack_le_I 100       -- entry 1: value
  ++ struct_pack_le_H 34735     -- entry 2: tag GeoKeyDirectoryTag
  ++ struct_pack_le_H 3         -- entry 2: type SHORT
  ++ struct_pack_le_I 4         -- entry 2: count
  ++ struct_pack_le_I 100       -- entry 2: offset to data
  ++ struct_pack_le_I 0         -- next IFD offset
  ++ struct_pack_le_H 1 ++ struct_pack_le_H 1
  ++ struct_pack_le_H 0 ++ struct_pack_le_H 0  -- GeoKey data

/-- Bytes produced by write_be_geotiff: the minimal big-endian GeoTIFF
fixture, mirroring the source byte group by byte group. -/
def write_be_geotiff : List Nat :=
  [77, 77]                      -- magic marker MM
  ++ struct_pack_be_H 42
  ++ struct_pack_be_I 8
  ++ struct_pack_be_H 2
  ++ struct_pack_be_H 256
  ++ struct_pack_be_H 3
  ++ struct_pack_be_I 1
  ++ struct_pack_be_I 100
  ++ struct_pack_be_H 34735
  ++ struct_pack_be_H 3
  ++ struct_pack_be_I 4
  ++ struct_pack_be_I 100
  ++ struct_pack_be_I 0
  ++ struct_pack_be_H 1 ++ struct_pack_be_H 1
  ++ struct_pack_be_H 0 ++ struct_pack_be_H 0

/-- Bytes produced by write_regular_tiff: the minimal plain TIFF
fixture without GeoTIFF tags. -/
def write_regular_tiff : List Nat :=
  [73, 73]
  ++ struct_pack_le_H 42
  ++ struct_pack_le_I 8
  ++ struct_pack_le_H 1         -- number of entries
  ++ struct_pack_le_H 256
  ++ struct_pack_le_H 3
  ++ struct_pack_le_I 1
  ++ struct_pack_le_I 100
  ++ struct_pack_le_I 0         -- next IFD offset

/-- Bytes produced by write_corrupted_tiff: an invalid magic marker
followed by a header-shaped remainder. -/
def write_corrupted_tiff : List Nat :=
  [88, 88]                      -- literal bytes XX
  ++ struct_pack_le_H 42
  ++ struct_pack_le_I 8

/-- Bytes produced by write_truncated_tiff: only the first 4 bytes of
a header. -/
def write_truncated_tiff : List Nat :=
  [73, 73]
  ++ struct_pack_le_H 42

/-- Text written by write_non_tiff. -/
def not_tiff_text : String := "This is not a TIFF file.\n"

/-- Bytes produced by write_non_tiff: the ASCII encoding of the text
it writes. -/
def write_non_tiff : List Nat :=
  not_tiff_text.toList.map Char.toNat

/-- Byte of a byte list at an index, 0 past the end. -/
def byteAt (bs : List Nat) (i : Nat) : Nat := bs.getD i 0

/-- Decode a 16-bit little-endian value at an offset. -/
def read_le_16 (bs : List Nat) (i : Nat) : Nat :=
  byteAt bs i + 256 * byteAt bs (i + 1)

/-- Decode a 32-bit little-endian value at an offset. -/
def read_le_32 (bs : List Nat) (i : Nat) : Nat :=
  byteAt bs i + 256 * byteAt bs (i + 1)
    + 65536 * byteAt bs (i + 2) + 16777216 * byteAt bs (i + 3)

/-- Decode a 16-bit big-endian value at an offset. -/
def read_be_16 (bs : List Nat) (i : Nat) : Nat :=
  256 * byteAt bs i + byteAt bs (i + 1)

/-- Decode a 32-bit big-endian value at an offset. -/
def read_be_32 (bs : List Nat) (i : Nat) : Nat :=
  16777216 * byteAt bs i + 65536 * byteAt bs (i + 1)
    + 256 * byteAt bs (i + 2) + byteAt bs (i + 3)

/-- The len bytes starting at offset off. -/
def fieldBytes (bs : List Nat) (off len : Nat) : List Nat :=
  (bs.drop off).take len

/-- Whether the byte pattern pat occurs contiguously anywhere in bs. -/
def hasPattern (bs pat : List Nat) : Bool :=
  (List.range bs.length).any (fun i => fieldBytes bs i pat.length == pat)

/-- Offsets and widths of every multi-byte integer field of the two
GeoTIFF fixtures: version, IFD offset, entry count, the four fields of
each of the two directory entries, the next-IFD offset, and the four
16-bit values of the GeoKey payload. -/
def multiByteFields : List (Nat × Nat) :=
  [(2, 2), (4, 4), (8, 2),
   (10, 2), (12, 2), (14, 4), (18, 4),
   (22, 2), (24, 2), (26, 4), (30, 4),
   (34, 4),
   (38, 2), (40, 2), (42, 2), (44, 2)]

/-- C1: the little-endian GeoTIFF fixture is 46 bytes: magic II,
version 42, IFD offset 8, entry count 2, entries 256/3/1/100 and
34735/3/4/100, next-IFD offset 0, then the payload 1, 1, 0, 0, every
multi-byte field little-endian. -/
theorem c1_le_geotiff_byte_layout :
    fieldBytes write_le_geotiff 0 2 = [73, 73] ∧
    read_le_16 write_le_geotiff 2 = 42 ∧
    read_le_32 write_le_geotiff 4 = 8 ∧
    read_le_16 write_le_geotiff 8 = 2 ∧
    read_le_16 write_le_geotiff 10 = 256 ∧
    read_le_16 write_le_geotiff 12 = 3 ∧
    read_le_32 write_le_geotiff 14 = 1 ∧
    read_le_32 write_le_geotiff 18 = 100 ∧
    read_le_16 write_le_geotiff 22 = 34735 ∧
    read_le_16 write_le_geotiff 24 = 3 ∧
    read_le_32 write_le_geotiff 26 = 4 ∧
    read_le_32 write_le_geotiff 30 = 100 ∧
    fieldBytes write_le_geotiff 34 4 = [0, 0, 0, 0] ∧
    read_le_16 write_le_geotiff 38 = 1 ∧
    read_le_16 write_le_geotiff 40 = 1 ∧
    read_le_16 write_le_geotiff 42 = 0 ∧
    read_le_16 write_le_geotiff 44 = 0 ∧
    write_le_geotiff.length = 46 := by
  decide

/-- C2: the big-endian GeoTIFF fixture carries the same field values as
the little-endian one, with magic MM and every multi-byte field written
in reversed byte sequence. -/
theorem c2_be_geotiff_mirror_of_le :
    fieldBytes write_be_geotiff 0 2 = [77, 77] ∧
    write_be_geotiff.length = write_le_geotiff.length ∧
    multiByteFields.map (fun p => fieldBytes write_be_geotiff p.1 p.2)
      = multiByteFields.map
          (fun p => (fieldBytes write_le_geotiff p.1 p.2).reverse) ∧
    read_be_16 write_be_geotiff 2 = 42 ∧
    read_be_32 write_be_geotiff 4 = 8 ∧
    read_be_16 write_be_geotiff 8 = 2 ∧
    read_be_16 write_be_geotiff 10 = 256 ∧
    read_be_16 write_be_geotiff 12 = 3 ∧
    read_be_32 write_be_geotiff 14 = 1 ∧
    read_be_32 write_be_geotiff 18 = 100 ∧
    read_be_16 write_be_geotiff 22 = 34735 ∧
    read_be_16 write_be_geotiff 24 = 3 ∧
    read_be_32 write_be_geotiff 26 = 4 ∧
    read_be_32 write_be_geotiff 30 = 100 ∧
    read_be_32 write_be_geotiff 34 = 0 ∧
    read_be_16 write_be_geotiff 38 = 1 ∧
    read_be_16 write_be_geotiff 40 = 1 ∧
    read_be_16 write_be_geotiff 42 = 0 ∧
    read_be_16 write_be_geotiff 44 = 0 := by
  decide

/-- C3: the plain TIFF fixture has entry count 1, its single entry is
tag 256 with type 3, count 1, value 100, neither byte encoding of tag
34735 occurs anywhere in it, and it is exactly 26 bytes long. -/
theorem c3_regular_tiff_layout :
    read_le_16 write_regular_tiff 8 = 1 ∧
    read_le_16 write_regular_tiff 10 = 256 ∧
    read_le_16 write_regular_tiff 12 = 3 ∧
    read_le_32 write_regular_tiff 14 = 1 ∧
    read_le_32 write_regular_tiff 18 = 100 ∧
    hasPattern write_regular_tiff [175, 135] = false ∧
    hasPattern write_regular_tiff [135, 175] = false ∧
    write_regular_tiff.length = 26 := by
  decide

/-- C4: the corrupted fixture is exactly 8 bytes: the literal bytes XX
(neither II nor MM), then 42 as 16-bit little-endian and 8 as 32-bit
little-endian. -/
theorem c4_corrupted_fixture :
    write_corrupted_tiff.length = 8 ∧
    fieldBytes write_corrupted_tiff 0 2 = [88, 88] ∧
    fieldBytes write_corrupted_tiff 0 2 ≠ [73, 73] ∧
    fieldBytes write_corrupted_tiff 0 2 ≠ [77, 77] ∧
    read_le_16 write_corrupted_tiff 2 = 42 ∧
    read_le_32 write_corrupted_tiff 4 = 8 := by
  decide

/-- C5: the truncated fixture is exactly the 4 bytes II followed by 42
as 16-bit little-endian, strictly shorter than the 8-byte header. -/
theorem c5_truncated_fixture :
    write_truncated_tiff = [73, 73, 42, 0] ∧
    write_truncated_tiff.length = 4 ∧
    write_truncated_tiff.length < 8 := by
  decide

/-- C6: the non-TIFF fixture is exactly the ASCII text written by the
source, its first two bytes are T and h (not a TIFF magic marker), and
every byte is printable ASCII or a newline. -/
theorem c6_non_tiff_fixture :
    write_non_tiff =
      [84, 104, 105, 115, 32, 105, 115, 32, 110, 111, 116, 32, 97, 32,
       84, 73, 70, 70, 32, 102, 105, 108, 101, 46, 10] ∧
    fieldBytes write_non_tiff 0 2 = [84, 104] ∧
    fieldBytes write_non_tiff 0 2 ≠ [73, 73] ∧
    fieldBytes write_non_tiff 0 2 ≠ [77, 77] ∧
    write_non_tiff.all (fun b => (32 ≤ b && b ≤ 126) || b == 10) = true := by
  decide

/-- Byte order of a TIFF file, per the data model of the spec. -/
inductive ByteOrder where
  | little : ByteOrder
  | big : ByteOrder

/-- Directory entry of an IFD, per the data model of the spec. -/
structure DirectoryEntry where
  tag : Nat
  fieldType : Nat
  count : Nat
  valueOrOffset : Nat

/-- Pack a 16-bit value in the given byte order. -/
def packH : ByteOrder → Nat → List Nat
  | ByteOrder.little, v => struct_pack_le_H v
  | ByteOrder.big, v => struct_pack_be_H v

/-- Pack a 32-bit value in the given byte order. -/
def packI : ByteOrder → Nat → List Nat
  | ByteOrder.little, v => struct_pack_le_I v
  | ByteOrder.big, v => struct_pack_be_I v

/-- Magic marker bytes for a byte order: II for little, MM for big. -/
def magicBytes : ByteOrder → List Nat
  | ByteOrder.little => [73, 73]
  | ByteOrder.big => [77, 77]

/-- Encoding of one 12-byte directory entry in the given byte order. -/
def encodeEntry (bo : ByteOrder) (e : DirectoryEntry) : List Nat :=
  packH bo e.tag ++ packH bo e.fieldType
    ++ packI bo e.count ++ packI bo e.valueOrOffset

/-- Structured TIFF encoder following the data model of the spec: one
byte order throughout, an 8-byte header of magic, version 42 and the
IFD offset, the entry count written as the length of the entry list,
the entries, the next-IFD offset, and an optional trailing payload of
16-bit values.  Used to compare the source fixtures against the
structured form. -/
def encodeTiff (bo : ByteOrder) (ifdOffset : Nat)
    (entries : List DirectoryEntry) (nextIfdOffset : Nat)
    (payload : List Nat) : List Nat :=
  magicBytes bo ++ packH bo 42 ++ packI bo ifdOffset
    ++ packH bo entries.length
    ++ (entries.map (encodeEntry bo)).flatten
    ++ packI bo nextIfdOffset
    ++ (payload.map (packH bo)).flatten

/-- Entry list of the two GeoTIFF fixtures. -/
def geoEntries : List DirectoryEntry :=
  [⟨256, 3, 1, 100⟩, ⟨34735, 3, 4, 100⟩]

/-- Entry list of the plain TIFF fixture. -/
def regularEntries : List DirectoryEntry :=
  [⟨256, 3, 1, 100⟩]

/-- C9: each TIFF-structured fixture equals the structured encoding in
a single byte order, so its entry-count field is the number of entries,
its IFD-offset field is 8 with the IFD right after the 8-byte header,
and its next-IFD offset is 0. -/
theorem c9_tiff_structural_invariants :
    write_le_geotiff = encodeTiff ByteOrder.little 8 geoEntries 0 [1, 1, 0, 0] ∧
    write_be_geotiff = encodeTiff ByteOrder.big 8 geoEntries 0 [1, 1, 0, 0] ∧
    write_regular_tiff = encodeTiff ByteOrder.little 8 regularEntries 0 [] ∧
    (magicBytes ByteOrder.little ++ packH ByteOrder.little 42
      ++ packI ByteOrder.little 8).length = 8 ∧
    (magicBytes ByteOrder.big ++ packH ByteOrder.big 42
      ++ packI ByteOrder.big 8).length = 8 ∧
    read_le_32 write_le_geotiff 4 = 8 ∧
    read_be_32 write_be_geotiff 4 = 8 ∧
    read_le_32 write_regular_tiff 4 = 8 ∧
    read_le_16 write_le_geotiff 8 = geoEntries.length ∧
    read_be_16 write_be_geotiff 8 = geoEntries.length ∧
    read_le_16 write_regular_tiff 8 = regularEntries.length ∧
    read_le_32 write_le_geotiff 34 = 0 ∧
    read_be_32 write_be_geotiff 34 = 0 ∧
    read_le_32 write_regular_tiff 22 = 0 := by
  decide

/-- C10: in both GeoTIFF fixtures the valueOrOffset field of the tag
34735 entry is 100, yet the key payload starts at byte 38 and the file
is only 46 bytes long, so offset 100 lies past the end of the file and
is not where the payload sits; the tag itself is present. -/
theorem c10_geokey_offset_inconsistent :
    read_le_32 write_le_geotiff 30 = 100 ∧
    read_be_32 write_be_geotiff 30 = 100 ∧
    write_le_geotiff.length = 46 ∧
    write_be_geotiff.length = 46 ∧
    fieldBytes write_le_geotiff 38 8 = [1, 0, 1, 0, 0, 0, 0, 0] ∧
    fieldBytes write_be_geotiff 38 8 = [0, 1, 0, 1, 0, 0, 0, 0] ∧
    write_le_geotiff.length ≤ 100 ∧
    write_be_geotiff.length ≤ 100 ∧
    (38 : Nat) ≠ 100 ∧
    read_le_16 write_le_geotiff 22 = 34735 ∧
    read_be_16 write_be_geotiff 22 = 34735 := by
  decide

/-- File-system state: the set of directories that exist and a partial
map from path to file content in bytes. -/
structure FileSys where
  dirs : List String
  files : String → Option (List Nat)

/-- Embedding of os.makedirs with exist_ok set: adds the directory if
absent, leaves the state unchanged otherwise. -/
def makedirs (s : FileSys) (d : String) : FileSys :=
  if d ∈ s.dirs then s else { s with dirs := d :: s.dirs }

/-- Embedding of opening a file for writing and writing content in
full: the previous content of the path, if any, is replaced. -/
def writeFileFS (s : FileSys) (p : String) (c : List Nat) : FileSys :=
  { s with files := fun n => if n = p then some c else s.files n }

/-- Embedding of main: create the data directory, then write the six
fixtures in source order. -/
def main_run (s : FileSys) : FileSys :=
  writeFileFS (writeFileFS (writeFileFS (writeFileFS (writeFileFS (writeFileFS
    (makedirs s "data")
    "data/le_geotiff.tif" write_le_geotiff)
    "data/be_geotiff.tif" write_be_geotiff)
    "data/regular.tif" write_regular_tiff)
    "data/corrupted.tif" write_corrupted_tiff)
    "data/truncated.tif" write_truncated_tiff)
    "data/not_tiff.txt" write_non_tiff

/-- Paths of the six fixture files written by main. -/
def fixturePaths : List String :=
  ["data/le_geotiff.tif", "data/be_geotiff.tif", "data/regular.tif",
   "data/corrupted.tif", "data/truncated.tif", "data/not_tiff.txt"]

theorem FileSys.ext2 (a b : FileSys) (h1 : a.dirs = b.dirs)
    (h2 : a.files = b.files) : a = b := by
  cases a; cases b; simp_all

theorem makedirs_files (s : FileSys) (d : String) :
    (makedirs s d).files = s.files := by
  unfold makedirs; split <;> rfl

theorem makedirs_eq_of_mem {s : FileSys} {d : String} (h : d ∈ s.dirs) :
    makedirs s d = s := by
  unfold makedirs; simp [h]

theorem mem_makedirs_dirs (s : FileSys) (d : String) :
    d ∈ (makedirs s d).dirs := by
  unfold makedirs; split
  · assumption
  · exact List.mem_cons_self _ _

theorem main_run_files (s : FileSys) (n : String) :
    (main_run s).files n =
      if n = "data/not_tiff.txt" then some write_non_tiff
      else if n = "data/truncated.tif" then some write_truncated_tiff
      else if n = "data/corrupted.tif" then some write_corrupted_tiff
      else if n = "data/regular.tif" then some write_regular_tiff
      else if n = "data/be_geotiff.tif" then some write_be_geotiff
      else if n = "data/le_geotiff.tif" then some write_le_geotiff
      else s.files n := by
  simp only [main_run, writeFileFS, makedirs_files]

theorem main_run_dirs (s : FileSys) :
    (main_run s).dirs = (makedirs s "data").dirs := rfl

/-- C7: generation is deterministic and idempotent: running main twice
from any state yields the same state as running it once, and the
content of every fixture path after a run does not depend on the
starting state. -/
theorem c7_generation_deterministic_idempotent (s t : FileSys) :
    main_run (main_run s) = main_run s ∧
    ∀ p, p ∈ fixturePaths → (main_run s).files p = (main_run t).files p := by
  constructor
  · refine FileSys.ext2 _ _ ?_ ?_
    · rw [main_run_dirs,
        makedirs_eq_of_mem (by rw [main_run_dirs]; exact mem_makedirs_dirs s "data")]
    · funext n
      simp only [main_run_files]
      split_ifs <;> rfl
  · intro p hp
    rw [main_run_files, main_run_files]
    simp only [fixturePaths, List.mem_cons, List.not_mem_nil, or_false] at hp
    rcases hp with rfl | rfl | rfl | rfl | rfl | rfl <;> rfl

/-- C7 witness: at two concrete distinct starting states, idempotence
and path-content agreement hold at a concrete fixture path. -/
theorem c7_generation_deterministic_idempotent_witness :
    main_run (main_run (FileSys.mk [] fun _ => none))
        = main_run (FileSys.mk [] fun _ => none) ∧
    (main_run (FileSys.mk [] fun _ => none)).files "data/regular.tif"
        = (main_run (FileSys.mk ["x"] fun _ => some [9])).files "data/regular.tif" :=
  ⟨(c7_generation_deterministic_idempotent (FileSys.mk [] fun _ => none)
      (FileSys.mk ["x"] fun _ => some [9])).1,
   (c7_generation_deterministic_idempotent (FileSys.mk [] fun _ => none)
      (FileSys.mk ["x"] fun _ => some [9])).2 "data/regular.tif" (by decide)⟩

/-- C8: a full run puts the data directory in place and writes exactly
the six fixture files: each of the six fixed paths maps to its fixture
content, and every other path is untouched. -/
theorem c8_output_layout (s : FileSys) :
    "data" ∈ (main_run s).dirs ∧
    (main_run s).files "data/le_geotiff.tif" = some write_le_geotiff ∧
    (main_run s).files "data/be_geotiff.tif" = some write_be_geotiff ∧
    (main_run s).files "data/regular.tif" = some write_regular_tiff ∧
    (main_run s).files "data/corrupted.tif" = some write_corrupted_tiff ∧
    (main_run s).files "data/truncated.tif" = some write_truncated_tiff ∧
    (main_run s).files "data/not_tiff.txt" = some write_non_tiff ∧
    ∀ n, n ∉ fixturePaths → (main_run s).files n = s.files n := by
  refine ⟨?_, ?_, ?_, ?_, ?_, ?_, ?_, ?_⟩
  · rw [main_run_dirs]; exact mem_makedirs_dirs s "data"
  · rw [main_run_files]; rfl
  · rw [main_run_files]; rfl
  · rw [main_run_files]; rfl
  · rw [main_run_files]; rfl
  · rw [main_run_files]; rfl
  · rw [main_run_files]; rfl
  · intro n hn
    simp only [fixturePaths, List.mem_cons, List.not_mem_nil, or_false,
      not_or] at hn
    rw [main_run_files]
    simp [hn.1, hn.2.1, hn.2.2.1, hn.2.2.2.1, hn.2.2.2.2.1, hn.2.2.2.2.2]

/-- C8 witness: from the empty state, the data directory exists, a
fixture path holds its fixture content, and an unrelated path stays
absent. -/
theorem c8_output_layout_witness :
    "data" ∈ (main_run (FileSys.mk [] fun _ => none)).dirs ∧
    (main_run (FileSys.mk [] fun _ => none)).files "data/regular.tif"
        = some write_regular_tiff ∧
    (main_run (FileSys.mk [] fun _ => none)).files "other.txt" = none :=
  ⟨(c8_output_layout (FileSys.mk [] fun _ => none)).1,
   (c8_output_layout (FileSys.mk [] fun _ => none)).2.2.2.1,
   ((c8_output_layout (FileSys.mk [] fun _ => none)).2.2.2.2.2.2.2
      "other.txt" (by decide)).trans rfl⟩
